import Mathlib

/-!
Shallow embedding of the Notion proxy server (src/index.js).

The server exposes three POST routes, each of which validates presence of
required JSON body fields, performs exactly one outbound call to the Notion
API, reshapes the result and replies with JSON.  Here each route handler is a
pure function of the parsed request-body fields and of the outcome of its
single upstream call (given as an `Except` value); the returned `RouteResult`
records the HTTP response and whether the upstream call was issued.

JavaScript value subtleties that the source relies on are modelled explicitly:
the distinction between a string, `null` and `undefined` (`JSVal`), falsiness
of the empty string (`isMissing`, `jsOrString`), `String.prototype.split` with
a comma separator (`jsSplitComma`), `String.prototype.trim` (`jsTrim`) and
`Array.prototype.filter(Boolean)` on strings.
-/

/-- A JavaScript value as produced by the property-extraction helper:
a string, `null`, or `undefined`.  Under `res.json` (JSON.stringify), an
object field holding `undefined` is omitted from the serialized output,
while a field holding `null` is kept as `null`. -/
inductive JSVal where
  | str (s : String)
  | null
  | undef
  deriving DecidableEq, Repr

/-- JS falsiness of a request-body field: `!x` is `true` exactly when the
string field is absent (`undefined`) or the empty string. -/
def isMissing : Option String → Bool
  | none => true
  | some s => s == ""

/-- JS `x || b` where `x` is a string-or-undefined (an optional chain result)
and `b` a string: returns `b` when `x` is `undefined` or the empty string. -/
def jsOrString : Option String → String → String
  | none, b => b
  | some s, b => if s == "" then b else s

/-- JS `v || b` where `v` is a string, `null` or `undefined`:
returns `b` when `v` is `null`, `undefined` or the empty string. -/
def jsvalOrString : JSVal → String → String
  | .str s, b => if s == "" then b else s
  | .null, b => b
  | .undef, b => b

/-- The set of characters removed by JS `String.prototype.trim`
(WhiteSpace and LineTerminator code points). -/
def isJsWhitespace (c : Char) : Bool :=
  [0x09, 0x0A, 0x0B, 0x0C, 0x0D, 0x20, 0xA0, 0x1680, 0x2000, 0x2001, 0x2002,
   0x2003, 0x2004, 0x2005, 0x2006, 0x2007, 0x2008, 0x2009, 0x200A, 0x2028,
   0x2029, 0x202F, 0x205F, 0x3000, 0xFEFF].contains c.toNat

/-- JS `s.trim()`: strip leading and trailing whitespace. -/
def jsTrim (s : String) : String :=
  String.mk (((s.data.dropWhile isJsWhitespace).reverse.dropWhile isJsWhitespace).reverse)

/-- Auxiliary for `jsSplitComma`: `acc` holds the current segment reversed. -/
def jsSplitCommaAux : List Char → List Char → List (List Char)
  | [], acc => [acc.reverse]
  | c :: cs, acc =>
      if c = ',' then acc.reverse :: jsSplitCommaAux cs []
      else jsSplitCommaAux cs (c :: acc)

/-- JS `s.split(',')` (single-character separator, no limit): splits on every
comma, keeping empty segments; the empty string yields `[""]`. -/
def jsSplitComma (s : String) : List String :=
  (jsSplitCommaAux s.data []).map String.mk

/-- One rich-text fragment of a Notion title or rich_text array: only its
rendered `plain_text` value is read by the server. -/
structure Fragment where
  plain_text : String
  deriving DecidableEq, Repr

/-- A Notion date range object; the server only reads `start`. -/
structure DateRange where
  start : String
  deriving DecidableEq, Repr

/-- The value object of one named property in a page's property bag.  Only
the four fields the server dereferences are modelled; `url := none` stands
for a `null` (or absent) `url` field and `date := none` for a `null` (or
absent) `date` field. -/
structure PropValue where
  title : List Fragment := []
  rich_text : List Fragment := []
  url : Option String := none
  date : Option DateRange := none
  deriving DecidableEq, Repr

/-- A Notion page object as consumed by the server: an id and the named
property bag (an association list, keys unique as JS object keys are). -/
structure Page where
  id : String
  properties : List (String × PropValue)
  deriving DecidableEq, Repr

/-- A Notion database object as returned by `notion.search`. -/
structure DbObject where
  id : String
  title : List Fragment
  deriving DecidableEq, Repr

/-- Upstream response of `notion.search`. -/
structure SearchResponse where
  results : List DbObject
  deriving DecidableEq, Repr

/-- Upstream response of `notion.databases.query`. -/
structure QueryResponse where
  results : List Page
  deriving DecidableEq, Repr

/-- An error thrown by an upstream call; the server only ever logs its
`body` and never places any part of it in the HTTP response. -/
structure UpstreamErr where
  body : String
  deriving DecidableEq, Repr

/-- The flat database summary sent to the front end. -/
structure DatabaseSummary where
  id : String
  title : String
  deriving DecidableEq, Repr

/-- The flat post record sent to the front end.  `headline`, `caption` and
`date` are `JSVal`s because the helper can produce a string, `null` or
`undefined`. -/
structure PostRecord where
  id : String
  headline : JSVal
  media : List String
  caption : JSVal
  date : JSVal
  deriving DecidableEq, Repr

/-- Body of an HTTP JSON response: an `{error: ...}` object, an array of
database summaries, an array of post records, or the
`{success: ..., message: ...}` acknowledgement.  `errorObj` carries only the
message string: the response object has no other field. -/
inductive RespBody where
  | errorObj (error : String)
  | databases (items : List DatabaseSummary)
  | posts (items : List PostRecord)
  | ack (success : Bool) (message : String)
  deriving DecidableEq, Repr

/-- An HTTP response: status code and JSON body. -/
structure Response where
  status : Nat
  body : RespBody
  deriving DecidableEq, Repr

/-- Outcome of one route invocation: the HTTP response, and whether the
single outbound call to the Notion API was issued. -/
structure RouteResult where
  response : Response
  upstreamCalled : Bool
  deriving DecidableEq, Repr

/-- The property-extraction helper `getProp` of the get-posts handler
(src/index.js lines 45-51).  The source's `subType` parameter always keeps
its default value `plain_text`, so it is fixed here.
`[0]?.plain_text || ''` is `jsOrString (head?.map plain_text) ""`;
a present `url` field that is `null` yields JS `null`;
`date?.start` yields JS `undefined` when `date` is `null`. -/
def getProp (properties : List (String × PropValue)) (name ty : String) : JSVal :=
  match properties.lookup name with
  | none => JSVal.null
  | some p =>
    if ty == "title" || ty == "rich_text" then
      let frags := if ty == "title" then p.title else p.rich_text
      JSVal.str (jsOrString ((frags.head?).map Fragment.plain_text) "")
    else if ty == "url" then
      match p.url with
      | some s => JSVal.str s
      | none => JSVal.null
    else if ty == "date" then
      match p.date with
      | some d => JSVal.str d.start
      | none => JSVal.undef
    else JSVal.null

/-- The per-page mapping of the get-posts handler (src/index.js lines 52-58):
`media` is `(getProp('Media','url') || '').split(',').map(trim).filter(Boolean)`,
where `filter(Boolean)` on strings drops exactly the empty segments. -/
def toPostRecord (page : Page) : PostRecord :=
  let properties := page.properties
  { id := page.id
    headline := getProp properties "Headline" "title"
    media := ((jsSplitComma (jsvalOrString (getProp properties "Media" "url") "")).map
                jsTrim).filter (fun u => u != "")
    caption := getProp properties "Caption" "rich_text"
    date := getProp properties "Scheduled Date" "date" }

/-- The per-database mapping of the get-databases handler (src/index.js
lines 21-24): `title: db.title[0]?.plain_text || 'Untitled Database'`. -/
def toDatabaseSummary (db : DbObject) : DatabaseSummary :=
  { id := db.id
    title := jsOrString ((db.title.head?).map Fragment.plain_text) "Untitled Database" }

/-- POST /api/get-databases (src/index.js lines 13-30). -/
def listDatabases (notionToken : Option String)
    (upstream : Except UpstreamErr SearchResponse) : RouteResult :=
  if isMissing notionToken then
    ⟨⟨400, .errorObj "Notion token is required."⟩, false⟩
  else
    match upstream with
    | .ok response => ⟨⟨200, .databases (response.results.map toDatabaseSummary)⟩, true⟩
    | .error _ => ⟨⟨500, .errorObj "Failed to fetch databases from Notion."⟩, true⟩

/-- POST /api/get-posts (src/index.js lines 32-65). -/
def listPosts (notionToken databaseId : Option String)
    (upstream : Except UpstreamErr QueryResponse) : RouteResult :=
  if isMissing notionToken || isMissing databaseId then
    ⟨⟨400, .errorObj "Notion token and Database ID are required."⟩, false⟩
  else
    match upstream with
    | .ok response => ⟨⟨200, .posts (response.results.map toPostRecord)⟩, true⟩
    | .error _ => ⟨⟨500, .errorObj "Failed to fetch posts from Notion."⟩, true⟩

/-- POST /api/update-post-date (src/index.js lines 67-83).  The upstream
`notion.pages.update` resolves to a page object whose value the handler
ignores.  In the success branch both fields are non-missing `some`
values, so `getD ""` is exactly the field's string, matching the template
literal interpolation of the source. -/
def updatePostDate (notionToken pageId newDate : Option String)
    (upstream : Except UpstreamErr Page) : RouteResult :=
  if isMissing notionToken || isMissing pageId || isMissing newDate then
    ⟨⟨400, .errorObj "Token, Page ID, and new date are required."⟩, false⟩
  else
    match upstream with
    | .ok _ =>
        ⟨⟨200, .ack true ("Post " ++ pageId.getD "" ++ " updated to " ++ newDate.getD "")⟩, true⟩
    | .error _ => ⟨⟨500, .errorObj "Failed to update post date in Notion."⟩, true⟩

/-- Claim C1: for every request to any of the three routes in which any
required body field is absent or the empty string, the handler responds with
HTTP status 400 and an `{error: ...}` body, and issues no outbound call to
the Notion API. -/
theorem missing_field_yields_400_no_upstream
    (tok dbid pid nd : Option String)
    (u1 : Except UpstreamErr SearchResponse) (u2 : Except UpstreamErr QueryResponse)
    (u3 : Except UpstreamErr Page) :
    (isMissing tok = true →
      listDatabases tok u1 = ⟨⟨400, .errorObj "Notion token is required."⟩, false⟩) ∧
    (isMissing tok = true ∨ isMissing dbid = true →
      listPosts tok dbid u2
        = ⟨⟨400, .errorObj "Notion token and Database ID are required."⟩, false⟩) ∧
    (isMissing tok = true ∨ isMissing pid = true ∨ isMissing nd = true →
      updatePostDate tok pid nd u3
        = ⟨⟨400, .errorObj "Token, Page ID, and new date are required."⟩, false⟩) := by
  refine ⟨fun h => ?_, fun h => ?_, fun h => ?_⟩
  · simp [listDatabases, h]
  · have hc : (isMissing tok || isMissing dbid) = true := by
      rcases h with h | h <;> simp [h]
    simp [listPosts, hc]
  · have hc : (isMissing tok || isMissing pid || isMissing nd) = true := by
      rcases h with h | h | h <;> simp [h]
    simp [updatePostDate, hc]

/-- Witness for C1 at concrete inputs: an empty token, a missing database id
and a missing date each yield the 400 response with no upstream call. -/
theorem missing_field_yields_400_no_upstream_witness :
    listDatabases (some "") (.ok ⟨[]⟩)
      = ⟨⟨400, .errorObj "Notion token is required."⟩, false⟩ ∧
    listPosts (some "tok") none (.ok ⟨[]⟩)
      = ⟨⟨400, .errorObj "Notion token and Database ID are required."⟩, false⟩ ∧
    updatePostDate (some "tok") (some "p1") none (.ok ⟨"pg", []⟩)
      = ⟨⟨400, .errorObj "Token, Page ID, and new date are required."⟩, false⟩ :=
  ⟨(missing_field_yields_400_no_upstream (some "") (some "d") (some "p") (some "x")
      (.ok ⟨[]⟩) (.ok ⟨[]⟩) (.ok ⟨"pg", []⟩)).1 (by decide),
   (missing_field_yields_400_no_upstream (some "tok") none (some "p") (some "x")
      (.ok ⟨[]⟩) (.ok ⟨[]⟩) (.ok ⟨"pg", []⟩)).2.1 (Or.inr (by decide)),
   (missing_field_yields_400_no_upstream (some "tok") (some "d") (some "p1") none
      (.ok ⟨[]⟩) (.ok ⟨[]⟩) (.ok ⟨"pg", []⟩)).2.2 (Or.inr (Or.inr (by decide)))⟩

/-- Claim C2: the property-extraction helper returns `null` when the named
property is absent from the property bag; in particular a page missing the
"Headline" property entirely gets `headline = null`, not the empty string. -/
theorem absent_property_yields_null
    (props : List (String × PropValue)) (name ty : String)
    (h : props.lookup name = none) (page : Page)
    (hpage : page.properties.lookup "Headline" = none) :
    getProp props name ty = JSVal.null ∧
    (toPostRecord page).headline = JSVal.null ∧
    (toPostRecord page).headline ≠ JSVal.str "" := by
  refine ⟨by simp [getProp, h], ?_, ?_⟩ <;> simp [toPostRecord, getProp, hpage]

/-- Witness for C2: a concrete page whose property bag lacks "Headline". -/
theorem absent_property_yields_null_witness :
    getProp [("Caption", { rich_text := [⟨"c"⟩] })] "Headline" "title" = JSVal.null ∧
    (toPostRecord ⟨"pg", [("Caption", { rich_text := [⟨"c"⟩] })]⟩).headline = JSVal.null ∧
    (toPostRecord ⟨"pg", [("Caption", { rich_text := [⟨"c"⟩] })]⟩).headline ≠ JSVal.str "" :=
  absent_property_yields_null [("Caption", { rich_text := [⟨"c"⟩] })] "Headline" "title"
    (by decide) ⟨"pg", [("Caption", { rich_text := [⟨"c"⟩] })]⟩ (by decide)

/-- Claim C3: for a present property read with kind title or rich_text, the
helper returns the first fragment's plain-text value, and the empty string
(not null) when the fragment list is empty. -/
theorem title_rich_text_first_fragment
    (props : List (String × PropValue)) (name : String) (p : PropValue)
    (h : props.lookup name = some p) :
    (∀ f fs, p.title = f :: fs → getProp props name "title" = JSVal.str f.plain_text) ∧
    (p.title = [] → getProp props name "title" = JSVal.str "") ∧
    (∀ f fs, p.rich_text = f :: fs → getProp props name "rich_text" = JSVal.str f.plain_text) ∧
    (p.rich_text = [] → getProp props name "rich_text" = JSVal.str "") := by
  have hor : ∀ s : String, jsOrString (some s) "" = s := by
    intro s
    by_cases hs : s = "" <;> simp [jsOrString, hs]
  refine ⟨fun f fs hf => ?_, fun hf => ?_, fun f fs hf => ?_, fun hf => ?_⟩ <;>
    simp [getProp, h, hf, hor, jsOrString] <;>
    exact fun h' => h'.symm

/-- Witness for C3: one property with a fragment (plain text "hello") and one
with an empty fragment list, read as title and as rich_text. -/
theorem title_rich_text_first_fragment_witness :
    getProp [("Headline", { title := [⟨"hello"⟩] })] "Headline" "title"
      = JSVal.str "hello" ∧
    getProp [("Caption", { rich_text := [] })] "Caption" "rich_text"
      = JSVal.str "" :=
  ⟨(title_rich_text_first_fragment [("Headline", { title := [⟨"hello"⟩] })] "Headline"
      { title := [⟨"hello"⟩] } (by decide)).1 ⟨"hello"⟩ [] (by decide),
   (title_rich_text_first_fragment [("Caption", { rich_text := [] })] "Caption"
      { rich_text := [] } (by decide)).2.2.2 (by decide)⟩

/-- Claim C4: `media` is obtained from the "Media" url string by splitting on
commas, trimming each segment and discarding empty segments; on the value
"http://a, http://b ," it equals ["http://a", "http://b"]. -/
theorem media_split_trim_filter
    (page : Page) (p : PropValue) (v : String)
    (h : page.properties.lookup "Media" = some p) (hurl : p.url = some v) :
    (toPostRecord page).media
      = ((jsSplitComma v).map jsTrim).filter (fun u => u != "") ∧
    (v = "http://a, http://b ," → (toPostRecord page).media = ["http://a", "http://b"]) := by
  have hv : jsvalOrString (getProp page.properties "Media" "url") "" = v := by
    by_cases hvv : v = "" <;> simp [getProp, h, hurl, jsvalOrString, hvv]
  constructor
  · simp [toPostRecord, hv]
  · intro hc
    subst hc
    simp [toPostRecord, hv]
    decide

/-- Witness for C4: a concrete page whose "Media" url is
"http://a, http://b ,". -/
theorem media_split_trim_filter_witness :
    (toPostRecord ⟨"pg", [("Media", { url := some "http://a, http://b ," })]⟩).media
      = ["http://a", "http://b"] :=
  (media_split_trim_filter ⟨"pg", [("Media", { url := some "http://a, http://b ," })]⟩
    { url := some "http://a, http://b ," } "http://a, http://b ,"
    (by decide) (by decide)).2 (by decide)

/-- Claim C5 counterexample: for a present "Scheduled Date" property whose
date range object is null, the helper evaluates `date?.start` to JS
undefined, which is not the JS value null (under JSON serialization the
field is omitted rather than kept as null), refuting the claim that the
helper returns null in this case. -/
theorem date_absent_returns_undef_not_null :
    getProp [("Scheduled Date", { date := none })] "Scheduled Date" "date" = JSVal.undef ∧
    getProp [("Scheduled Date", { date := none })] "Scheduled Date" "date" ≠ JSVal.null ∧
    (toPostRecord ⟨"pg", [("Scheduled Date", { date := none })]⟩).date ≠ JSVal.null := by
  decide

/-- Claim C5 as amended: for a present property read with kind date, the
helper returns the start-date string of the date range object when that
object is present, and JS undefined (not null) when it is absent; a
PostRecord's date is therefore a string, null (property absent) or
undefined (date range absent). -/
theorem date_prop_start_or_undef
    (props : List (String × PropValue)) (name : String) (p : PropValue)
    (h : props.lookup name = some p) :
    (∀ d, p.date = some d → getProp props name "date" = JSVal.str d.start) ∧
    (p.date = none → getProp props name "date" = JSVal.undef) := by
  refine ⟨fun d hd => ?_, fun hd => ?_⟩ <;> simp [getProp, h, hd]

/-- Witness for the amended C5: a date range starting "2024-05-01" and a
null date range, on concrete property bags. -/
theorem date_prop_start_or_undef_witness :
    getProp [("Scheduled Date", { date := some ⟨"2024-05-01"⟩ })] "Scheduled Date" "date"
      = JSVal.str "2024-05-01" ∧
    getProp [("Scheduled Date", { date := none })] "Scheduled Date" "date"
      = JSVal.undef :=
  ⟨(date_prop_start_or_undef [("Scheduled Date", { date := some ⟨"2024-05-01"⟩ })]
      "Scheduled Date" { date := some ⟨"2024-05-01"⟩ } (by decide)).1
      ⟨"2024-05-01"⟩ (by decide),
   (date_prop_start_or_undef [("Scheduled Date", { date := none })]
      "Scheduled Date" { date := none } (by decide)).2 (by decide)⟩

/-- Claim C6: a successful update responds with exactly
`{success: true, message: "Post <pageId> updated to <newDate>"}`; in
particular with pageId "p1" and newDate "2024-05-01" the message is
"Post p1 updated to 2024-05-01". -/
theorem update_success_ack
    (tok pid nd : String) (r : Page)
    (h1 : tok ≠ "") (h2 : pid ≠ "") (h3 : nd ≠ "") :
    updatePostDate (some tok) (some pid) (some nd) (.ok r)
      = ⟨⟨200, .ack true ("Post " ++ pid ++ " updated to " ++ nd)⟩, true⟩ ∧
    updatePostDate (some "t") (some "p1") (some "2024-05-01") (.ok r)
      = ⟨⟨200, .ack true "Post p1 updated to 2024-05-01"⟩, true⟩ := by
  constructor
  · simp [updatePostDate, isMissing, h1, h2, h3]
  · simp [updatePostDate, isMissing]

/-- Witness for C6 at token "t", page id "p1", new date "2024-05-01". -/
theorem update_success_ack_witness :
    updatePostDate (some "t") (some "p1") (some "2024-05-01") (.ok ⟨"p1", []⟩)
      = ⟨⟨200, .ack true "Post p1 updated to 2024-05-01"⟩, true⟩ :=
  (update_success_ack "t" "p1" "2024-05-01" ⟨"p1", []⟩
    (by decide) (by decide) (by decide)).2

/-- Claim C7: whenever the upstream call fails, each route responds with
HTTP 500 and a body that is exactly an `{error: ...}` object holding the
route's fixed string — the same response for every upstream error value and
every token, so no token, stack trace or upstream error detail can appear. -/
theorem upstream_failure_500_fixed_message
    (tok dbid pid nd : Option String) (e1 e2 e3 : UpstreamErr)
    (h1 : isMissing tok = false) (h2 : isMissing dbid = false)
    (h3 : isMissing pid = false) (h4 : isMissing nd = false) :
    listDatabases tok (.error e1)
      = ⟨⟨500, .errorObj "Failed to fetch databases from Notion."⟩, true⟩ ∧
    listPosts tok dbid (.error e2)
      = ⟨⟨500, .errorObj "Failed to fetch posts from Notion."⟩, true⟩ ∧
    updatePostDate tok pid nd (.error e3)
      = ⟨⟨500, .errorObj "Failed to update post date in Notion."⟩, true⟩ := by
  refine ⟨?_, ?_, ?_⟩ <;> simp [listDatabases, listPosts, updatePostDate, h1, h2, h3, h4]

/-- Witness for C7: concrete non-missing fields and a concrete upstream
error whose body mentions the token; the responses carry only the fixed
strings. -/
theorem upstream_failure_500_fixed_message_witness :
    listDatabases (some "tok") (.error ⟨"secret tok leaked"⟩)
      = ⟨⟨500, .errorObj "Failed to fetch databases from Notion."⟩, true⟩ ∧
    listPosts (some "tok") (some "db1") (.error ⟨"secret tok leaked"⟩)
      = ⟨⟨500, .errorObj "Failed to fetch posts from Notion."⟩, true⟩ ∧
    updatePostDate (some "tok") (some "p1") (some "2024-05-01") (.error ⟨"secret tok leaked"⟩)
      = ⟨⟨500, .errorObj "Failed to update post date in Notion."⟩, true⟩ :=
  upstream_failure_500_fixed_message (some "tok") (some "db1") (some "p1")
    (some "2024-05-01") ⟨"secret tok leaked"⟩ ⟨"secret tok leaked"⟩ ⟨"secret tok leaked"⟩
    (by decide) (by decide) (by decide) (by decide)

/-- Claim C8: two calls of the update route with the same token, page id and
new date, each against a successful upstream call, produce identical
responses (the handler ignores the upstream result value entirely), and that
common response is the success acknowledgement. -/
theorem update_idempotent
    (tok pid nd : Option String) (r₁ r₂ : Page)
    (h1 : isMissing tok = false) (h2 : isMissing pid = false)
    (h3 : isMissing nd = false) :
    updatePostDate tok pid nd (.ok r₁) = updatePostDate tok pid nd (.ok r₂) ∧
    updatePostDate tok pid nd (.ok r₁)
      = ⟨⟨200, .ack true ("Post " ++ pid.getD "" ++ " updated to " ++ nd.getD "")⟩, true⟩ := by
  constructor
  · simp [updatePostDate, h1, h2, h3]
  · simp [updatePostDate, h1, h2, h3]

/-- Witness for C8: two successful calls with identical arguments but
distinct upstream result objects give the same acknowledgement. -/
theorem update_idempotent_witness :
    updatePostDate (some "t") (some "p1") (some "2024-05-01") (.ok ⟨"p1", []⟩)
      = updatePostDate (some "t") (some "p1") (some "2024-05-01")
          (.ok ⟨"p1", [("Caption", { rich_text := [] })]⟩) ∧
    updatePostDate (some "t") (some "p1") (some "2024-05-01") (.ok ⟨"p1", []⟩)
      = ⟨⟨200, .ack true "Post p1 updated to 2024-05-01"⟩, true⟩ :=
  update_idempotent (some "t") (some "p1") (some "2024-05-01") ⟨"p1", []⟩
    ⟨"p1", [("Caption", { rich_text := [] })]⟩ (by decide) (by decide) (by decide)

/-- Claim C9: when the "Media" property is absent, or present with a null
url value, the record's media is the empty list. -/
theorem media_empty_on_absent_or_null (page : Page) :
    (page.properties.lookup "Media" = none → (toPostRecord page).media = []) ∧
    (∀ p, page.properties.lookup "Media" = some p → p.url = none →
      (toPostRecord page).media = []) := by
  have hempty : ((jsSplitComma "").map jsTrim).filter (fun u => u != "") = [] := by decide
  refine ⟨fun h => ?_, fun p h hurl => ?_⟩
  · simp [toPostRecord, getProp, jsvalOrString, h, hempty]
  · simp [toPostRecord, getProp, jsvalOrString, h, hurl, hempty]

/-- Witness for C9: a page without "Media" and a page whose "Media" url is
null both yield media = []. -/
theorem media_empty_on_absent_or_null_witness :
    (toPostRecord ⟨"pg", []⟩).media = [] ∧
    (toPostRecord ⟨"pg", [("Media", { url := none })]⟩).media = [] :=
  ⟨(media_empty_on_absent_or_null ⟨"pg", []⟩).1 (by decide),
   (media_empty_on_absent_or_null ⟨"pg", [("Media", { url := none })]⟩).2
      { url := none } (by decide) (by decide)⟩

/-- Claim C10: the "Untitled Database" default appears not only when the
title-fragment array is empty but also whenever the first fragment exists
with an empty plain-text value; a non-empty plain-text value is kept. -/
theorem untitled_default_on_empty_plain_text (db : DbObject) :
    (db.title = [] → (toDatabaseSummary db).title = "Untitled Database") ∧
    (∀ f fs, db.title = f :: fs → f.plain_text = "" →
      (toDatabaseSummary db).title = "Untitled Database") ∧
    (∀ f fs, db.title = f :: fs → f.plain_text ≠ "" →
      (toDatabaseSummary db).title = f.plain_text) := by
  refine ⟨fun h => ?_, fun f fs h hf => ?_, fun f fs h hf => ?_⟩
  · simp [toDatabaseSummary, jsOrString, h]
  · simp [toDatabaseSummary, jsOrString, h, hf]
  · simp [toDatabaseSummary, jsOrString, h, hf]

/-- Witness for C10: a database whose single title fragment has empty plain
text defaults to "Untitled Database", exactly like an empty title array; a
non-empty fragment is kept verbatim. -/
theorem untitled_default_on_empty_plain_text_witness :
    (toDatabaseSummary ⟨"db1", [⟨""⟩]⟩).title = "Untitled Database" ∧
    (toDatabaseSummary ⟨"db2", []⟩).title = "Untitled Database" ∧
    (toDatabaseSummary ⟨"db3", [⟨"Posts"⟩]⟩).title = "Posts" :=
  ⟨(untitled_default_on_empty_plain_text ⟨"db1", [⟨""⟩]⟩).2.1 ⟨""⟩ [] (by decide) (by decide),
   (untitled_default_on_empty_plain_text ⟨"db2", []⟩).1 (by decide),
   (untitled_default_on_empty_plain_text ⟨"db3", [⟨"Posts"⟩]⟩).2.2 ⟨"Posts"⟩ []
      (by decide) (by decide)⟩

example : jsSplitComma "" = [""] := by decide
example : jsSplitComma "http://a, http://b ," = ["http://a", " http://b ", ""] := by decide
example : jsTrim " http://b " = "http://b" := by decide
example :
    ((jsSplitComma "http://a, http://b ,").map jsTrim).filter (fun u => u != "")
      = ["http://a", "http://b"] := by decide
example : getProp [] "Headline" "title" = JSVal.null := by decide
example : getProp [("Scheduled Date", { date := none })] "Scheduled Date" "date"
    = JSVal.undef := by decide
example : getProp [("Headline", { title := [⟨"hi"⟩] })] "Headline" "title"
    = JSVal.str "hi" := by decide
